import Mathlib

/-!
Verification of the instruction-encoding layer of the `ic-spl` repository.

The Rust sources are shallowly embedded: Rust `String` values become byte
lists (`List Nat`, each entry a byte), public keys become 32-entry byte
lists wrapped in a structure, fallible code returns `Option`/`Except`, and
code that can panic (`unwrap`/`expect`) returns a `PResult`.  Machine
integers are modelled as `Nat` with explicit `% 2 ^ w` at the points where
the source truncates.
-/

namespace IcSpl

/-- Result of running Rust code that may panic (`unwrap` / `expect`).
`panicked` models a Rust panic, which aborts rather than returning a
typed error to the caller. -/
inductive PResult (α : Type) : Type
  | ok (a : α) : PResult α
  | panicked : PResult α
  deriving DecidableEq

namespace PResult

def bind : PResult α → (α → PResult β) → PResult β
  | .ok a, f => f a
  | .panicked, _ => .panicked

instance : Monad PResult where
  pure := .ok
  bind := bind

def isPanic : PResult α → Bool
  | .ok _ => false
  | .panicked => true

@[simp] theorem bind_ok (a : α) (f : α → PResult β) :
    bind (.ok a) f = f a := rfl

@[simp] theorem bind_panicked (f : α → PResult β) :
    bind (.panicked : PResult α) f = .panicked := rfl

@[simp] theorem pure_eq (a : α) : (pure a : PResult α) = .ok a := rfl

@[simp] theorem monad_bind_eq (x : PResult α) (f : α → PResult β) :
    x >>= f = bind x f := rfl

end PResult

/-! ### Public keys and base58 parsing

`ic_solana::types::Pubkey` is a 32-byte identifier; `Pubkey::from_str`
decodes a base58 string and fails unless the result is exactly 32 bytes. -/

/-- A 32-byte account / program identifier (`ic_solana::types::Pubkey`);
the fixed length is part of the type, as in the Rust `[u8; 32]` wrapper. -/
structure Pubkey where
  bytes : List Nat
  len32 : bytes.length = 32
  deriving DecidableEq

/-- Base58 digit value of an ASCII byte (the Bitcoin alphabet, which the
Rust `bs58` crate uses); `none` for bytes outside the alphabet. -/
def base58Digit (b : Nat) : Option Nat :=
  if 49 ≤ b ∧ b ≤ 57 then some (b - 49)        -- characters 1-9
  else if 65 ≤ b ∧ b ≤ 72 then some (b - 56)   -- A-H
  else if 74 ≤ b ∧ b ≤ 78 then some (b - 57)   -- J-N
  else if 80 ≤ b ∧ b ≤ 90 then some (b - 58)   -- P-Z
  else if 97 ≤ b ∧ b ≤ 107 then some (b - 64)  -- a-k
  else if 109 ≤ b ∧ b ≤ 122 then some (b - 65) -- m-z
  else none

/-- Accumulate the big-endian base58 value of a byte string. -/
def base58Value : List Nat → Nat → Option Nat
  | [], acc => some acc
  | b :: bs, acc =>
    match base58Digit b with
    | some d => base58Value bs (acc * 58 + d)
    | none => none

/-- Big-endian bytes of a natural number (no leading zeros); `fuel` bounds
the recursion and is always taken large enough. -/
def natToBEBytes : Nat → Nat → List Nat
  | 0, _ => []
  | fuel + 1, n => if n = 0 then [] else natToBEBytes fuel (n / 256) ++ [n % 256]

/-- Number of leading `'1'` characters (ASCII 49), each of which stands
for one leading zero byte in base58. -/
def leadingOnes : List Nat → Nat
  | [] => 0
  | b :: bs => if b = 49 then leadingOnes bs + 1 else 0

/-- Decode a base58 byte string into raw bytes (`bs58::decode`). -/
def base58Decode (s : List Nat) : Option (List Nat) :=
  (base58Value s 0).map fun n =>
    List.replicate (leadingOnes s) 0 ++ natToBEBytes 64 n

/-- `Pubkey::from_str`: base58-decode and require exactly 32 bytes. -/
def pubkeyFromStr (s : List Nat) : Option Pubkey :=
  match base58Decode s with
  | some bs => if h : bs.length = 32 then some ⟨bs, h⟩ else none
  | none => none

/-- ASCII bytes of a literal (all the repository's key literals are ASCII). -/
def ascii (s : String) : List Nat := s.data.map Char.toNat

/-- `Pubkey::from_str(..).unwrap()` on a constant that is known to parse. -/
def pubkeyConst (s : String) : Pubkey :=
  (pubkeyFromStr (ascii s)).getD ⟨List.replicate 32 0, rfl⟩

/-! ### Constant program identifiers (src/token/constants.rs, metaplex/mod.rs) -/

def system_program_id : Pubkey := pubkeyConst "11111111111111111111111111111111"

def compute_budget_id : Pubkey := pubkeyConst "ComputeBudget111111111111111111111111111111"

def sysvar_program_id : Pubkey := pubkeyConst "Sysvar1nstructions1111111111111111111111111"

def token_program_id : Pubkey := pubkeyConst "TokenkegQfeZyiNwAJbNbGKPFXCWuBvf9Ss623VQ5DA"

def token22_program_id : Pubkey := pubkeyConst "TokenzQdBNbLqP5VEhdkAS6EPFLC1PHnBqCXEpPxuEb"

def associated_account_program_id : Pubkey := pubkeyConst "ATokenGPvbdGVxr1b2hvZbsiqW5xWH25efTNsLJA8knL"

def metadata_program_id : Pubkey := pubkeyConst "metaqbxxUerdq28cj1RbAWkYQm3ybzjb6a8bt518x1s"

/-- `SYSVAR_ID` (the rent sysvar) from src/token/system_instruction.rs. -/
def rent_sysvar_id : Pubkey := pubkeyConst "SysvarRent111111111111111111111111111111111"

/-! ### Instructions and account references -/

/-- `ic_solana::types::AccountMeta`. -/
structure AccountMeta where
  pubkey : Pubkey
  is_signer : Bool
  is_writable : Bool
  deriving DecidableEq

/-- `AccountMeta::new` — writable, with the given signer flag. -/
def AccountMeta.new (pubkey : Pubkey) (signer : Bool) : AccountMeta :=
  ⟨pubkey, signer, true⟩

/-- `AccountMeta::new_readonly`. -/
def AccountMeta.new_readonly (pubkey : Pubkey) (signer : Bool) : AccountMeta :=
  ⟨pubkey, signer, false⟩

/-- `ic_solana::types::Instruction`: program id, ordered account
references, opaque data bytes. -/
structure Instruction where
  program_id : Pubkey
  accounts : List AccountMeta
  data : List Nat
  deriving DecidableEq

/-! ### Little-endian scalar encodings -/

/-- `u16::to_le_bytes` (2 bytes). -/
def u16LE (n : Nat) : List Nat := [n % 256, n / 256 % 256]

/-- `u32::to_le_bytes` (4 bytes). -/
def u32LE (n : Nat) : List Nat :=
  [n % 256, n / 256 % 256, n / 2 ^ 16 % 256, n / 2 ^ 24 % 256]

/-- `u64::to_le_bytes` (8 bytes). -/
def u64LE (n : Nat) : List Nat :=
  [n % 256, n / 256 % 256, n / 2 ^ 16 % 256, n / 2 ^ 24 % 256,
   n / 2 ^ 32 % 256, n / 2 ^ 40 % 256, n / 2 ^ 48 % 256, n / 2 ^ 56 % 256]

/-! ### Borsh primitives

Borsh writes a `u32` little-endian length prefix before strings and
vectors and fails (`Err`) when a length does not fit in `u32`; enums are
a one-byte variant tag followed by the variant's fields; `Option` is a
one-byte presence flag; fixed 32-byte keys are written raw. -/

/-- Borsh length prefix: `u32::try_from(len)` then 4 LE bytes. -/
def borshLen (n : Nat) : Option (List Nat) :=
  if n < 2 ^ 32 then some (u32LE n) else none

/-- Borsh encoding of a Rust `String` / `Vec<u8>` (length prefix + bytes). -/
def borshBytes (s : List Nat) : Option (List Nat) :=
  (borshLen s.length).map (· ++ s)

/-- Borsh encoding of `Option<T>` given an encoder for `T`. -/
def borshOpt (f : α → Option (List Nat)) : Option α → Option (List Nat)
  | none => some [0]
  | some a => (f a).map (1 :: ·)

/-- Borsh encoding of `bool` (one byte, 0 or 1). -/
def borshBool (b : Bool) : List Nat := [if b then 1 else 0]

/-- Concatenate a list of fallible byte chunks, failing if any chunk fails. -/
def joinChunks : List (Option (List Nat)) → Option (List Nat)
  | [] => some []
  | c :: cs => do pure ((← c) ++ (← joinChunks cs))

/-- Borsh encoding of `Vec<T>` given an encoder for `T`. -/
def borshVec (f : α → Option (List Nat)) (xs : List α) : Option (List Nat) := do
  pure ((← borshLen xs.length) ++ (← joinChunks (xs.map f)))

/-! ### src/token/token_instruction.rs -/

/-- `initialize_mint2`: discriminator 20, decimals, mint authority, and
an optional freeze authority behind a presence byte; single writable
mint account, no rent sysvar. -/
def initialize_mint2 (token_prog mint_pubkey mint_authority : Pubkey)
    (freeze_authority : Option Pubkey) (decimals : Nat) : Instruction :=
  { program_id := token_prog
    accounts := [AccountMeta.new mint_pubkey false]
    data := 20 :: decimals ::
      mint_authority.bytes ++
      (match freeze_authority with
       | none => [0]
       | some p => 1 :: p.bytes) }

/-- `mint_to`: discriminator 7 and the amount; accounts are the writable
mint, the writable destination, the owner (signer exactly when no extra
signers), then one read-only signer entry per supplied signer key. -/
def mint_to (token_prog mint_pubkey account_pubkey owner_pubkey : Pubkey)
    (signer_pubkeys : List Pubkey) (amount : Nat) : Instruction :=
  { program_id := token_prog
    accounts :=
      [AccountMeta.new mint_pubkey false,
       AccountMeta.new account_pubkey false,
       AccountMeta.new_readonly owner_pubkey signer_pubkeys.isEmpty] ++
      signer_pubkeys.map (AccountMeta.new_readonly · true)
    data := 7 :: u64LE amount }

/-- `initialize_mint_close_authority`: discriminator 25, optional close
authority behind a presence byte; addressed to the token-22 program. -/
def initialize_mint_close_authority (token_mint : Pubkey)
    (close_authority : Option Pubkey) : Instruction :=
  { program_id := token22_program_id
    accounts := [AccountMeta.new token_mint false]
    data := 25 ::
      (match close_authority with
       | some p => 1 :: p.bytes
       | none => [0]) }

/-- `initialize_metadata_pointer`: discriminator bytes 39, 0 then the
authority and metadata addresses; addressed to the token-22 program. -/
def initialize_metadata_pointer (token_mint metadata_addr authority : Pubkey) :
    Instruction :=
  { program_id := token22_program_id
    accounts := [AccountMeta.new token_mint false]
    data := 39 :: 0 :: authority.bytes ++ metadata_addr.bytes }

/-- `close_account`: discriminator 9; writable account and destination,
the owner (signer exactly when no extra signers), then the extra
read-only signer entries. -/
def close_account (token_prog account_pubkey destination_pubkey owner_pubkey : Pubkey)
    (signer_pubkeys : List Pubkey) : Instruction :=
  { program_id := token_prog
    accounts :=
      [AccountMeta.new account_pubkey false,
       AccountMeta.new destination_pubkey false,
       AccountMeta.new_readonly owner_pubkey signer_pubkeys.isEmpty] ++
      signer_pubkeys.map (AccountMeta.new_readonly · true)
    data := [9] }

/-- `freeze_account`: discriminator 10; writable account, read-only mint,
the freeze authority (signer exactly when no extra signers), then the
extra read-only signer entries. -/
def freeze_account (token_prog account_pubkey mint_pubkey owner_pubkey : Pubkey)
    (signer_pubkeys : List Pubkey) : Instruction :=
  { program_id := token_prog
    accounts :=
      [AccountMeta.new account_pubkey false,
       AccountMeta.new_readonly mint_pubkey false,
       AccountMeta.new_readonly owner_pubkey signer_pubkeys.isEmpty] ++
      signer_pubkeys.map (AccountMeta.new_readonly · true)
    data := [10] }

/-! ### src/token/system_instruction.rs -/

/-- Bincode encoding of `SystemInstruction::CreateAccount` as produced by
`Instruction::new_with_bincode` in the external `ic_solana` crate: 4-byte
little-endian enum tag (`CreateAccount` is variant 0), then `lamports`
and `space` as `u64` little-endian and the raw 32-byte owner key. -/
def bincodeCreateAccount (lamports space : Nat) (owner : Pubkey) : List Nat :=
  u32LE 0 ++ u64LE lamports ++ u64LE space ++ owner.bytes

/-- `create_account`: addressed to the system program, funding account and
new account both writable signers, bincode-encoded `CreateAccount` data. -/
def create_account (from_pubkey to_pubkey : Pubkey) (lamports space : Nat)
    (owner : Pubkey) : Instruction :=
  { program_id := pubkeyConst "11111111111111111111111111111111"
    accounts := [AccountMeta.new from_pubkey true, AccountMeta.new to_pubkey true]
    data := bincodeCreateAccount lamports space owner }

/-! ### src/token/associated_account.rs

`Pubkey::find_program_address` is an external collaborator (sha256-based
program-derived-address search in `ic_solana`); the builders below are
parametrised over it as a function `Fpa` from seed byte strings and a
program id to a derived address and bump. -/

/-- Type of the external `Pubkey::find_program_address` collaborator. -/
def Fpa : Type := List (List Nat) → Pubkey → Pubkey × Nat

/-- The `AssociatedTokenAccountInstruction` enum; borsh encodes it as a
single variant-tag byte (no variant has fields). -/
inductive AssociatedTokenAccountInstruction : Type
  | Create
  | CreateIdempotent
  | RecoverNested
  deriving DecidableEq

/-- Borsh encoding of `AssociatedTokenAccountInstruction`. -/
def borshAtaInstruction : AssociatedTokenAccountInstruction → List Nat
  | .Create => [0]
  | .CreateIdempotent => [1]
  | .RecoverNested => [2]

def get_associated_token_address_and_bump_seed_internal (fpa : Fpa)
    (wallet_address token_mint_address program_id token_prog : Pubkey) :
    Pubkey × Nat :=
  fpa [wallet_address.bytes, token_prog.bytes, token_mint_address.bytes] program_id

def get_associated_token_address_and_bump_seed (fpa : Fpa)
    (wallet_address token_mint_address program_id token_prog : Pubkey) :
    Pubkey × Nat :=
  get_associated_token_address_and_bump_seed_internal fpa
    wallet_address token_mint_address program_id token_prog

def get_associated_token_address_with_program_id (fpa : Fpa)
    (wallet_address token_mint_address token_prog : Pubkey) : Pubkey :=
  (get_associated_token_address_and_bump_seed fpa wallet_address
    token_mint_address associated_account_program_id token_prog).1

/-- Common body of the two associated-token-account builders: derive the
associated account address, then emit the six fixed account references
and the borsh-encoded variant tag. -/
def build_associated_token_account_instruction (fpa : Fpa)
    (funding_address wallet_address token_mint_address token_prog : Pubkey)
    (instr : AssociatedTokenAccountInstruction) : Instruction :=
  let associated_account_address :=
    get_associated_token_address_with_program_id fpa wallet_address
      token_mint_address token_prog
  { program_id := associated_account_program_id
    accounts :=
      [AccountMeta.new funding_address true,
       AccountMeta.new associated_account_address false,
       AccountMeta.new_readonly wallet_address false,
       AccountMeta.new_readonly token_mint_address false,
       AccountMeta.new_readonly system_program_id false,
       AccountMeta.new_readonly token_prog false]
    data := borshAtaInstruction instr }

def create_associated_token_account (fpa : Fpa)
    (funding_address wallet_address token_mint_address token_prog : Pubkey) :
    Instruction :=
  build_associated_token_account_instruction fpa funding_address wallet_address
    token_mint_address token_prog .Create

def create_associated_token_account_idempotent (fpa : Fpa)
    (funding_address wallet_address token_mint_address token_prog : Pubkey) :
    Instruction :=
  build_associated_token_account_instruction fpa funding_address wallet_address
    token_mint_address token_prog .CreateIdempotent

/-! ### src/token/token_metadata.rs -/

/-- `ProgramError` (crate::token::program_error); only the
`InvalidAccountData` variant is referenced by the sources under
verification. -/
inductive ProgramError : Type
  | InvalidAccountData
  deriving DecidableEq

/-- `TokenMetadata`: the on-chain token-22 metadata extension record.
Strings are byte lists; `OptionalNonZeroPubkey` is a plain 32-byte key. -/
structure TokenMetadata where
  update_authority : Pubkey
  mint : Pubkey
  name : List Nat
  symbol : List Nat
  uri : List Nat
  additional_metadata : List (List Nat × List Nat)
  deriving DecidableEq

/-- Borsh encoding of one `(String, String)` key/value pair. -/
def borshPair (p : List Nat × List Nat) : Option (List Nat) := do
  pure ((← borshBytes p.1) ++ (← borshBytes p.2))

/-- Full borsh serialization of a `TokenMetadata` value: the two raw
32-byte keys, three length-prefixed strings, then the length-prefixed
vector of key/value pairs. -/
def serializeTokenMetadata (m : TokenMetadata) : Option (List Nat) := do
  pure (m.update_authority.bytes ++ m.mint.bytes ++
    (← borshBytes m.name) ++ (← borshBytes m.symbol) ++ (← borshBytes m.uri) ++
    (← borshVec borshPair m.additional_metadata))

/-- Byte count contributed by one length-prefixed string under the
`WriteCounter` probing pass (4 prefix bytes plus the content). -/
def countString (s : List Nat) : Option Nat :=
  if s.length < 2 ^ 32 then some (4 + s.length) else none

/-- Byte count of one key/value pair under the probing pass. -/
def countPair (p : List Nat × List Nat) : Option Nat := do
  pure ((← countString p.1) + (← countString p.2))

/-- Sum the counts of a list of fallible counted chunks. -/
def sumCounts : List (Option Nat) → Option Nat
  | [] => some 0
  | c :: cs => do pure ((← c) + (← sumCounts cs))

/-- `get_instance_packed_len` at `TokenMetadata`: run the serializer with
a `WriteCounter` sink, accumulating the length of every chunk written
instead of the bytes themselves. -/
def get_instance_packed_len (m : TokenMetadata) : Option Nat := do
  let vecLen ←
    if m.additional_metadata.length < 2 ^ 32 then
      do pure (4 + (← sumCounts (m.additional_metadata.map countPair)))
    else none
  pure (32 + 32 + (← countString m.name) + (← countString m.symbol) +
    (← countString m.uri) + vecLen)

/-- `TokenMetadata::tlv_size_of`: 10-byte TLV header plus the probed
instance length; the probing pass's error is `unwrap`ped (a panic). -/
def tlv_size_of (m : TokenMetadata) : PResult (Except ProgramError Nat) :=
  match get_instance_packed_len m with
  | some n => .ok (.ok (10 + n))
  | none => .panicked

/-- The 8-byte discriminator of the token-metadata `Initialize`
instruction, as hard-coded in the source. -/
def initializeMetadataDiscriminator : List Nat :=
  [210, 225, 30, 162, 88, 184, 77, 141]

/-- Token-metadata `initialize` (aliased `initialize_metadata` at its use
site): 8-byte discriminator plus the borsh-encoded name/symbol/uri; the
borsh `unwrap` panics when a string length does not fit in `u32`. -/
def initialize_metadata (prog metadata update_authority mint mint_authority : Pubkey)
    (name symbol uri : List Nat) : PResult Instruction :=
  match (do
      pure ((← borshBytes name) ++ (← borshBytes symbol) ++ (← borshBytes uri)) :
      Option (List Nat)) with
  | none => .panicked
  | some body =>
    .ok { program_id := prog
          accounts :=
            [AccountMeta.new metadata false,
             AccountMeta.new_readonly update_authority false,
             AccountMeta.new_readonly mint false,
             AccountMeta.new_readonly mint_authority true]
          data := initializeMetadataDiscriminator ++ body }

/-- `Field`: which metadata field an `UpdateField` instruction touches. -/
inductive MetadataField : Type
  | Name
  | Symbol
  | Uri
  | Key (k : List Nat)
  deriving DecidableEq

/-- Borsh encoding of `Field`. -/
def borshField : MetadataField → Option (List Nat)
  | .Name => some [0]
  | .Symbol => some [1]
  | .Uri => some [2]
  | .Key k => (borshBytes k).map (3 :: ·)

/-- The 8-byte discriminator of the token-metadata `UpdateField`
instruction, as hard-coded in the source. -/
def updateFieldDiscriminator : List Nat :=
  [221, 233, 49, 45, 181, 202, 220, 200]

/-- Token-metadata `update_field`: 8-byte discriminator plus the
borsh-encoded field selector and value. -/
def update_field (prog metadata update_authority : Pubkey)
    (field : MetadataField) (value : List Nat) : PResult Instruction :=
  match (do pure ((← borshField field) ++ (← borshBytes value)) :
      Option (List Nat)) with
  | none => .panicked
  | some body =>
    .ok { program_id := prog
          accounts :=
            [AccountMeta.new metadata false,
             AccountMeta.new_readonly update_authority true]
          data := updateFieldDiscriminator ++ body }

/-! ### src/compute_budget/compute_budget.rs -/

/-- The `ComputeBudgetInstruction` enum. -/
inductive ComputeBudgetInstruction : Type
  | RequestUnitsDeprecated (units additional_fee : Nat)
  | RequestHeapFrame (bytes : Nat)
  | SetComputeUnitLimit (units : Nat)
  | SetComputeUnitPrice (micro_lamports : Nat)
  | SetLoadedAccountsDataSizeLimit (bytes : Nat)
  deriving DecidableEq

/-- Borsh encoding of `ComputeBudgetInstruction`: one-byte variant tag in
declaration order, then the variant's little-endian fields. -/
def borshComputeBudget : ComputeBudgetInstruction → List Nat
  | .RequestUnitsDeprecated units fee => 0 :: u32LE units ++ u32LE fee
  | .RequestHeapFrame b => 1 :: u32LE b
  | .SetComputeUnitLimit units => 2 :: u32LE units
  | .SetComputeUnitPrice p => 3 :: u64LE p
  | .SetLoadedAccountsDataSizeLimit b => 4 :: u32LE b

/-- `utils::new_with_borsh` specialised to `ComputeBudgetInstruction`
(serialization of this enum never fails, so the `unwrap` cannot panic). -/
def new_with_borsh (prog : Pubkey) (d : ComputeBudgetInstruction)
    (accounts : List AccountMeta) : Instruction :=
  { program_id := prog, accounts, data := borshComputeBudget d }

def request_heap_frame (bytes : Nat) : Instruction :=
  new_with_borsh compute_budget_id (.RequestHeapFrame bytes) []

def set_compute_unit_limit (units : Nat) : Instruction :=
  new_with_borsh compute_budget_id (.SetComputeUnitLimit units) []

def set_compute_unit_price (micro_lamports : Nat) : Instruction :=
  new_with_borsh compute_budget_id (.SetComputeUnitPrice micro_lamports) []

def set_loaded_accounts_data_size_limit (bytes : Nat) : Instruction :=
  new_with_borsh compute_budget_id (.SetLoadedAccountsDataSizeLimit bytes) []

/-! ### src/metaplex/types.rs and its borsh encodings -/

structure Creator where
  address : Pubkey
  verified : Bool
  share : Nat
  deriving DecidableEq

structure Collection where
  verified : Bool
  key : Pubkey
  deriving DecidableEq

inductive CollectionDetails : Type
  | V1 (size : Nat)
  | V2 (padding : List Nat)
  deriving DecidableEq

inductive UseMethod : Type
  | Burn
  | Multiple
  | Single
  deriving DecidableEq

structure Uses where
  use_method : UseMethod
  remaining : Nat
  total : Nat
  deriving DecidableEq

inductive PrintSupply : Type
  | Zero
  | Limited (n : Nat)
  | Unlimited
  deriving DecidableEq

inductive TokenStandard : Type
  | NonFungible
  | FungibleAsset
  | Fungible
  | NonFungibleEdition
  | ProgrammableNonFungible
  | ProgrammableNonFungibleEdition
  deriving DecidableEq

/-- `CreateArgs` (single `V1` variant) with its borsh field order. -/
structure CreateArgsV1 where
  name : List Nat
  symbol : List Nat
  uri : List Nat
  seller_fee_basis_points : Nat
  creators : Option (List Creator)
  primary_sale_happened : Bool
  is_mutable : Bool
  token_standard : TokenStandard
  collection : Option Collection
  uses : Option Uses
  collection_details : Option CollectionDetails
  rule_set : Option Pubkey
  decimals : Option Nat
  print_supply : Option PrintSupply
  deriving DecidableEq

def borshCreator (c : Creator) : Option (List Nat) :=
  some (c.address.bytes ++ borshBool c.verified ++ [c.share % 256])

def borshCollection (c : Collection) : Option (List Nat) :=
  some (borshBool c.verified ++ c.key.bytes)

def borshCollectionDetails : CollectionDetails → Option (List Nat)
  | .V1 size => some (0 :: u64LE size)
  | .V2 padding => some (1 :: padding.map (· % 256))

def borshUseMethod : UseMethod → List Nat
  | .Burn => [0]
  | .Multiple => [1]
  | .Single => [2]

def borshUses (u : Uses) : Option (List Nat) :=
  some (borshUseMethod u.use_method ++ u64LE u.remaining ++ u64LE u.total)

def borshPrintSupply : PrintSupply → Option (List Nat)
  | .Zero => some [0]
  | .Limited n => some (1 :: u64LE n)
  | .Unlimited => some [2]

def borshTokenStandard : TokenStandard → List Nat
  | .NonFungible => [0]
  | .FungibleAsset => [1]
  | .Fungible => [2]
  | .NonFungibleEdition => [3]
  | .ProgrammableNonFungible => [4]
  | .ProgrammableNonFungibleEdition => [5]

def borshPubkeyOpt : Option Pubkey → Option (List Nat) :=
  borshOpt fun p => some p.bytes

/-- Borsh encoding of `CreateArgs::V1`: variant tag 0 then the fields in
declaration order. -/
def borshCreateArgs (a : CreateArgsV1) : Option (List Nat) := do
  pure (0 :: (← borshBytes a.name) ++ (← borshBytes a.symbol) ++
    (← borshBytes a.uri) ++ u16LE a.seller_fee_basis_points ++
    (← borshOpt (borshVec borshCreator) a.creators) ++
    borshBool a.primary_sale_happened ++ borshBool a.is_mutable ++
    borshTokenStandard a.token_standard ++
    (← borshOpt borshCollection a.collection) ++
    (← borshOpt borshUses a.uses) ++
    (← borshOpt borshCollectionDetails a.collection_details) ++
    (← borshPubkeyOpt a.rule_set) ++
    (← borshOpt (fun d => some [d % 256]) a.decimals) ++
    (← borshOpt borshPrintSupply a.print_supply))

/-! ### src/metaplex/mod.rs — metadata-program `Create` -/

/-- `derive_metadata_pda`: PDA of `["metadata", program id, mint]` under
the metadata program. -/
def derive_metadata_pda (fpa : Fpa) (pubkey : Pubkey) : Pubkey :=
  (fpa [ascii "metadata", metadata_program_id.bytes, pubkey.bytes]
    metadata_program_id).1

/-- The `Create` accounts struct. -/
structure Create where
  metadata : Pubkey
  master_edition : Option Pubkey
  mint : Pubkey × Bool
  authority : Pubkey
  payer : Pubkey
  update_authority : Pubkey × Bool
  system_program : Pubkey
  sysvar_instructions : Pubkey
  spl_token_program : Option Pubkey
  deriving DecidableEq

/-- `CreateInstructionArgs` wraps the create args; its borsh encoding is
that of the wrapped struct. -/
structure CreateInstructionArgs where
  create_args : CreateArgsV1
  deriving DecidableEq

/-- `Create::instruction_with_remaining_accounts`: nine fixed account
slots — absent optional accounts are filled with the metadata program's
own id as a read-only non-signer placeholder — followed by the caller's
remaining accounts; data is the discriminator byte 42 followed by the
borsh-encoded args (whose `unwrap` panics on oversize strings). -/
def Create.instruction_with_remaining_accounts (c : Create)
    (args : CreateInstructionArgs) (remaining_accounts : List AccountMeta) :
    PResult Instruction :=
  let accounts :=
    [AccountMeta.new c.metadata false] ++
    (match c.master_edition with
     | some me => [AccountMeta.new me false]
     | none => [AccountMeta.new_readonly metadata_program_id false]) ++
    [AccountMeta.new c.mint.1 c.mint.2,
     AccountMeta.new_readonly c.authority true,
     AccountMeta.new c.payer true,
     AccountMeta.new_readonly c.update_authority.1 c.update_authority.2,
     AccountMeta.new_readonly c.system_program false,
     AccountMeta.new_readonly c.sysvar_instructions false] ++
    (match c.spl_token_program with
     | some tp => [AccountMeta.new_readonly tp false]
     | none => [AccountMeta.new_readonly metadata_program_id false]) ++
    remaining_accounts
  match borshCreateArgs args.create_args with
  | none => .panicked
  | some argBytes =>
    .ok { program_id := metadata_program_id
          accounts
          data := 42 :: argBytes }

def Create.instruction (c : Create) (args : CreateInstructionArgs) :
    PResult Instruction :=
  c.instruction_with_remaining_accounts args []

/-- The staged `CreateBuilder`; `none` marks a field never set. -/
structure CreateBuilder where
  metadata : Option Pubkey := none
  master_edition : Option Pubkey := none
  mint : Option (Pubkey × Bool) := none
  authority : Option Pubkey := none
  payer : Option Pubkey := none
  update_authority : Option (Pubkey × Bool) := none
  system_program : Option Pubkey := none
  sysvar_instructions : Option Pubkey := none
  spl_token_program : Option Pubkey := none
  create_args : Option CreateArgsV1 := none
  remaining_accounts : List AccountMeta := []
  deriving DecidableEq

def CreateBuilder.new : CreateBuilder := {}

def CreateBuilder.set_metadata (b : CreateBuilder) (metadata : Pubkey) :
    CreateBuilder := { b with metadata := some metadata }

def CreateBuilder.set_mint (b : CreateBuilder) (mint : Pubkey) (as_signer : Bool) :
    CreateBuilder := { b with mint := some (mint, as_signer) }

def CreateBuilder.set_authority (b : CreateBuilder) (authority : Pubkey) :
    CreateBuilder := { b with authority := some authority }

def CreateBuilder.set_payer (b : CreateBuilder) (payer : Pubkey) :
    CreateBuilder := { b with payer := some payer }

def CreateBuilder.set_update_authority (b : CreateBuilder)
    (update_authority : Pubkey) (as_signer : Bool) : CreateBuilder :=
  { b with update_authority := some (update_authority, as_signer) }

def CreateBuilder.set_create_args (b : CreateBuilder) (create_args : CreateArgsV1) :
    CreateBuilder := { b with create_args := some create_args }

/-- `Option::expect`: the value, or a panic when absent. -/
def expectSome : Option α → PResult α
  | some a => .ok a
  | none => .panicked

/-- `CreateBuilder::instruction`: `expect`s every required field (in the
order the `Create` literal is evaluated), defaults the unset
system-program and instructions-sysvar slots to their well-known ids,
then delegates to `Create::instruction_with_remaining_accounts`. -/
def CreateBuilder.instruction (b : CreateBuilder) : PResult Instruction := do
  let metadata ← expectSome b.metadata
  let mint ← expectSome b.mint
  let authority ← expectSome b.authority
  let payer ← expectSome b.payer
  let update_authority ← expectSome b.update_authority
  let accounts : Create :=
    { metadata
      master_edition := b.master_edition
      mint
      authority
      payer
      update_authority
      system_program := b.system_program.getD system_program_id
      sysvar_instructions := b.sysvar_instructions.getD sysvar_program_id
      spl_token_program := b.spl_token_program }
  let create_args ← expectSome b.create_args
  accounts.instruction_with_remaining_accounts ⟨create_args⟩ b.remaining_accounts

/-! ### src/metaplex/create_metadata_ix.rs -/

structure FungibleFields where
  name : List Nat
  symbol : List Nat
  uri : List Nat
  deriving DecidableEq

structure CreateMetadataArgs where
  mint : List Nat
  metadata : FungibleFields
  immutable : Bool
  payer : Pubkey
  deriving DecidableEq

/-- `create_metadata_ix`: parses the textual mint with
`Pubkey::from_str(..).unwrap()` (a panic on malformed input, not a
returned error), derives the metadata PDA, and drives `CreateBuilder`. -/
def create_metadata_ix (fpa : Fpa) (args : CreateMetadataArgs) :
    PResult (Except ProgramError Instruction) := do
  let mint_pubkey ← expectSome (pubkeyFromStr args.mint)
  let metadata_pubkey := derive_metadata_pda fpa mint_pubkey
  let create_args : CreateArgsV1 :=
    { name := args.metadata.name
      symbol := args.metadata.symbol
      uri := args.metadata.uri
      seller_fee_basis_points := 0
      creators := none
      primary_sale_happened := false
      is_mutable := !args.immutable
      token_standard := .Fungible
      collection := none
      uses := none
      collection_details := none
      rule_set := none
      decimals := none
      print_supply := none }
  let create_ix ←
    ((((((CreateBuilder.new.set_metadata metadata_pubkey).set_mint
      mint_pubkey false).set_authority args.payer).set_payer
      args.payer).set_update_authority args.payer true).set_create_args
      create_args).instruction
  pure (.ok create_ix)

/-! ### src/metaplex/create_fungible22_ix.rs -/

structure TransferFeeConfig where
  transfer_fee_config_authority : Option (List Nat)
  withdraw_withheld_authority : Option (List Nat)
  fee_basis_points : Nat
  max_fee : Nat
  deriving DecidableEq

structure InterestBearingConfig where
  rate_authority : Option (List Nat)
  rate : Int
  deriving DecidableEq

structure TransferHookConfig where
  program_id : Option (List Nat)
  authority : Option (List Nat)
  deriving DecidableEq

structure MetadataConfig where
  name : List Nat
  symbol : List Nat
  uri : List Nat
  additional_metadata : Option (List (List Nat × List Nat))
  deriving DecidableEq

structure Fungible22Fields where
  metadata : Option MetadataConfig
  close_authority : Option (List Nat)
  permanent_delegate : Option (List Nat)
  non_transferrable : Option Bool
  transfer_fee : Option TransferFeeConfig
  interest_bearing : Option InterestBearingConfig
  transfer_hook : Option TransferHookConfig
  deriving DecidableEq

structure CreateFungible22Args where
  mint : Pubkey
  extensions : Fungible22Fields
  mint_size : Nat
  mint_rent : Nat
  decimals : Nat
  payer : Pubkey
  deriving DecidableEq

/-- `create_fungible_22_ix`: `create_account` sized by the caller's
`mint_size`, then (when requested) the metadata-pointer and
close-authority extension initialisations in that fixed order, then
`initialize_mint2`, then the metadata initialisation and one
`update_field` per additional key/value pair.  The source also builds an
`extension_types` vector (pushing `MintCloseAuthority`) that it never
reads; being dead, it is not part of the embedding.  The textual close
authority is parsed with `Pubkey::from_str(..).unwrap()`, a panic on
malformed input. -/
def create_fungible_22_ix (args : CreateFungible22Args) :
    PResult (List Instruction) := do
  let ins0 := [create_account args.payer args.mint args.mint_rent
    args.mint_size token22_program_id]
  let ins1 :=
    if args.extensions.metadata.isSome then
      ins0 ++ [initialize_metadata_pointer args.mint args.mint args.payer]
    else ins0
  let ins2 ←
    match args.extensions.close_authority with
    | none => pure ins1
    | some s => do
      let ca ← expectSome (pubkeyFromStr s)
      pure (ins1 ++ [initialize_mint_close_authority args.mint (some ca)])
  let ins3 := ins2 ++ [initialize_mint2 token22_program_id args.mint
    args.payer (some args.payer) args.decimals]
  match args.extensions.metadata with
  | none => pure ins3
  | some mc => do
    let initMeta ← initialize_metadata token22_program_id args.mint args.payer
      args.mint args.payer mc.name mc.symbol mc.uri
    let ins4 := ins3 ++ [initMeta]
    match mc.additional_metadata with
    | none => pure ins4
    | some pairs => do
      let extra ← pairs.mapM fun p =>
        update_field token22_program_id args.mint args.payer
          (MetadataField.Key p.1) p.2
      pure (ins4 ++ extra)

/-! ### Helper observers and concrete fixtures used by the theorems -/

/-- The instruction list of a non-panicking run (empty on panic). -/
def resList : PResult (List Instruction) → List Instruction
  | .ok l => l
  | .panicked => []

/-- Little-endian value of a byte list. -/
def leNat : List Nat → Nat
  | [] => 0
  | b :: bs => b + 256 * leNat bs

/-- The `space` field of a bincode-encoded `CreateAccount` payload
(offset 12, eight little-endian bytes: after the 4-byte enum tag and the
8-byte `lamports`). -/
def decodeCreateAccountSpace (ix : Instruction) : Nat :=
  leNat ((ix.data.drop 12).take 8)

/-- Inert placeholder instruction for total list indexing. -/
def dummyInstruction : Instruction := ⟨⟨List.replicate 32 0, rfl⟩, [], []⟩

/-- A trivial stand-in for the external program-derived-address function,
used to instantiate `Fpa`-parametric statements at a concrete input. -/
def trivFpa : Fpa := fun _ _ => (⟨List.replicate 32 0, rfl⟩, 0)

/-- Concrete payer key (bytes 0..31). -/
def pkPayer : Pubkey := ⟨List.range 32, rfl⟩

/-- Concrete mint key. -/
def pkMint : Pubkey := ⟨List.replicate 32 7, rfl⟩

/-- The metadata config of the spec's end-to-end scenario:
name `"X"`, symbol `"X"`, uri `"u"`, no additional metadata. -/
def metaCfgX : MetadataConfig := ⟨ascii "X", ascii "X", ascii "u", none⟩

/-- A valid base58 close-authority string (decodes to 32 zero bytes). -/
def closeAuthorityStr : List Nat := ascii "11111111111111111111111111111111"

/-- Extensions requesting both the metadata and close-authority records. -/
def extBoth : Fungible22Fields :=
  ⟨some metaCfgX, some closeAuthorityStr, none, none, none, none, none⟩

/-- C1's concrete request: both extensions, `mint_size = 0`. -/
def f22ArgsA : CreateFungible22Args := ⟨pkMint, extBoth, 0, 1000000, 6, pkPayer⟩

/-- C3's concrete request: both extensions, a nonzero size. -/
def f22ArgsB : CreateFungible22Args := ⟨pkMint, extBoth, 500, 3000, 9, pkPayer⟩

/-- C10 baseline request: only the metadata extension. -/
def f22ArgsC : CreateFungible22Args :=
  ⟨pkMint, ⟨some metaCfgX, none, none, none, none, none, none⟩, 82, 1, 0, pkPayer⟩

/-- C10 variant: same as the baseline except in the five fields the
builder never reads. -/
def f22ArgsD : CreateFungible22Args :=
  ⟨pkMint,
   ⟨some metaCfgX, none, some (ascii "deleg"), some true,
    some ⟨some (ascii "a"), none, 5, 10⟩, some ⟨none, -3⟩,
    some ⟨some (ascii "p"), none⟩⟩,
   82, 1, 0, pkPayer⟩

/-- A request whose textual close authority is not valid base58. -/
def badF22Args : CreateFungible22Args :=
  ⟨pkMint, ⟨none, some (ascii "0"), none, none, none, none, none⟩, 82, 1, 0, pkPayer⟩

/-- A metadata request whose textual mint is not valid base58. -/
def badCreateMetadataArgs : CreateMetadataArgs :=
  ⟨ascii "0", ⟨ascii "N", ascii "S", ascii "U"⟩, false, pkPayer⟩

/-- Small concrete `CreateArgs::V1` payload. -/
def caV1small : CreateArgsV1 :=
  ⟨ascii "N", ascii "S", ascii "U", 0, none, false, true, .Fungible,
   none, none, none, none, none, none⟩

/-- Concrete `Create` accounts struct with no master edition. -/
def createC5 : Create :=
  ⟨pkMint, none, (pkMint, true), pkPayer, pkPayer, (pkPayer, true),
   system_program_id, sysvar_program_id, none⟩

/-- A fully-populated builder (required fields only). -/
def builderFull : CreateBuilder :=
  ((((((CreateBuilder.new.set_metadata pkMint).set_mint pkMint false).set_authority
    pkPayer).set_payer pkPayer).set_update_authority pkPayer true).set_create_args
    caV1small)

/-- Concrete token metadata record. -/
def tmFixture : TokenMetadata :=
  ⟨system_program_id, pkMint, ascii "Name", ascii "SYM", ascii "uri",
   [(ascii "k", ascii "v")]⟩

/-- C3's counterexample request: both extensions. -/
def f22ArgsE : CreateFungible22Args := ⟨pkMint, extBoth, 300, 5, 2, pkPayer⟩

/-- C3's witness request: both extensions. -/
def f22ArgsF : CreateFungible22Args := ⟨pkMint, extBoth, 165, 42, 8, pkPayer⟩

end IcSpl

namespace IcSpl

/-! ## Theorems -/

/-- All seven constant program-id literals parse as 32-byte base58 keys,
so the `unwrap`s in the constant accessors never fire. -/
theorem program_id_literals_parse :
    (pubkeyFromStr (ascii "11111111111111111111111111111111")).isSome = true ∧
    (pubkeyFromStr (ascii "ComputeBudget111111111111111111111111111111")).isSome = true ∧
    (pubkeyFromStr (ascii "Sysvar1nstructions1111111111111111111111111")).isSome = true ∧
    (pubkeyFromStr (ascii "TokenkegQfeZyiNwAJbNbGKPFXCWuBvf9Ss623VQ5DA")).isSome = true ∧
    (pubkeyFromStr (ascii "TokenzQdBNbLqP5VEhdkAS6EPFLC1PHnBqCXEpPxuEb")).isSome = true ∧
    (pubkeyFromStr (ascii "ATokenGPvbdGVxr1b2hvZbsiqW5xWH25efTNsLJA8knL")).isSome = true ∧
    (pubkeyFromStr (ascii "metaqbxxUerdq28cj1RbAWkYQm3ybzjb6a8bt518x1s")).isSome = true := by
  decide

/-- Shape of the `[fixed prefix] ++ appended signers` account pattern
shared by `mint_to`, `close_account` and `freeze_account`. -/
theorem signer_block_shape (a b : AccountMeta) (owner : Pubkey)
    (signers : List Pubkey) :
    ([a, b, AccountMeta.new_readonly owner signers.isEmpty] ++
      signers.map (AccountMeta.new_readonly · true)).length = 3 + signers.length ∧
    ([a, b, AccountMeta.new_readonly owner signers.isEmpty] ++
      signers.map (AccountMeta.new_readonly · true))[2]? =
      some (AccountMeta.new_readonly owner (signers.length == 0)) ∧
    ([a, b, AccountMeta.new_readonly owner signers.isEmpty] ++
      signers.map (AccountMeta.new_readonly · true)).drop 3 =
      signers.map (AccountMeta.new_readonly · true) := by
  refine ⟨by simp; omega, ?_, rfl⟩
  cases signers <;> rfl

/-- C2: each of `mint_to`, `close_account` and `freeze_account` makes the
owner entry (index 2) a signer exactly when no additional signer keys are
supplied, and appends exactly the supplied keys as read-only signer
entries with no other accounts. -/
theorem token_multisig_owner_signer_exclusive (tp p1 p2 owner : Pubkey)
    (signers : List Pubkey) (amount : Nat) :
    ((mint_to tp p1 p2 owner signers amount).accounts.length = 3 + signers.length ∧
     (mint_to tp p1 p2 owner signers amount).accounts[2]? =
       some (AccountMeta.new_readonly owner (signers.length == 0)) ∧
     (mint_to tp p1 p2 owner signers amount).accounts.drop 3 =
       signers.map (AccountMeta.new_readonly · true)) ∧
    ((close_account tp p1 p2 owner signers).accounts.length = 3 + signers.length ∧
     (close_account tp p1 p2 owner signers).accounts[2]? =
       some (AccountMeta.new_readonly owner (signers.length == 0)) ∧
     (close_account tp p1 p2 owner signers).accounts.drop 3 =
       signers.map (AccountMeta.new_readonly · true)) ∧
    ((freeze_account tp p1 p2 owner signers).accounts.length = 3 + signers.length ∧
     (freeze_account tp p1 p2 owner signers).accounts[2]? =
       some (AccountMeta.new_readonly owner (signers.length == 0)) ∧
     (freeze_account tp p1 p2 owner signers).accounts.drop 3 =
       signers.map (AccountMeta.new_readonly · true)) :=
  ⟨signer_block_shape _ _ owner signers,
   signer_block_shape _ _ owner signers,
   signer_block_shape _ _ owner signers⟩

/-- C4: for the same inputs, the `Create` and `CreateIdempotent`
associated-token-account instructions agree on program id and on the
whole account list, and their data differ only in the discriminator
byte: `[0]` versus `[1]`. -/
theorem ata_create_vs_idempotent_discriminator_only (fpa : Fpa)
    (funding wallet mint tp : Pubkey) :
    (create_associated_token_account fpa funding wallet mint tp).program_id =
      (create_associated_token_account_idempotent fpa funding wallet mint tp).program_id ∧
    (create_associated_token_account fpa funding wallet mint tp).accounts =
      (create_associated_token_account_idempotent fpa funding wallet mint tp).accounts ∧
    (create_associated_token_account fpa funding wallet mint tp).data = [0] ∧
    (create_associated_token_account_idempotent fpa funding wallet mint tp).data = [1] :=
  ⟨rfl, rfl, rfl, rfl⟩

/-- C6: `set_compute_unit_limit` targets the compute-budget program with
no accounts, and its data is the `SetComputeUnitLimit` discriminator
byte 2 followed by the 4-byte little-endian unit count (which reassembles
to the argument); at 50000 the bytes are `[2, 0x50, 0xC3, 0, 0]`. -/
theorem set_compute_unit_limit_encoding (units : Nat) (h : units < 2 ^ 32) :
    (set_compute_unit_limit units =
      { program_id := compute_budget_id, accounts := [],
        data := 2 :: u32LE units } ∧
     leNat (u32LE units) = units) ∧
    (set_compute_unit_limit 50000).data = [2, 0x50, 0xC3, 0, 0] := by
  refine ⟨⟨rfl, ?_⟩, by decide⟩
  simp only [u32LE, leNat]
  omega

/-- Witness for C6 at the spec's concrete scenario `units = 50000`. -/
theorem set_compute_unit_limit_encoding_witness :
    (set_compute_unit_limit 50000 =
      { program_id := compute_budget_id, accounts := [],
        data := 2 :: u32LE 50000 } ∧
     leNat (u32LE 50000) = 50000) ∧
    (set_compute_unit_limit 50000).data = [2, 0x50, 0xC3, 0, 0] :=
  set_compute_unit_limit_encoding 50000 (by decide)

/-- C5: a metaplex `Create` instruction built without a master edition
still has the fixed nine account slots (plus any remaining accounts),
and slot 1 holds the metadata program's own id, read-only non-signer. -/
theorem metaplex_create_master_edition_placeholder (c : Create)
    (args : CreateInstructionArgs) (rem : List AccountMeta)
    (hme : c.master_edition = none)
    (hb : (borshCreateArgs args.create_args).isSome = true) :
    ∃ ix, c.instruction_with_remaining_accounts args rem = .ok ix ∧
      ix.accounts.length = 9 + rem.length ∧
      ix.accounts[1]? = some (AccountMeta.new_readonly metadata_program_id false) := by
  obtain ⟨bs, hbs⟩ := Option.isSome_iff_exists.mp hb
  simp only [Create.instruction_with_remaining_accounts, hme, hbs]
  refine ⟨_, rfl, ?_, rfl⟩
  cases c.spl_token_program <;> simp <;> omega

/-- Witness for C5 at a concrete accounts struct and args payload. -/
theorem metaplex_create_master_edition_placeholder_witness :
    ∃ ix, createC5.instruction_with_remaining_accounts ⟨caV1small⟩ [] = .ok ix ∧
      ix.accounts.length = 9 + ([] : List AccountMeta).length ∧
      ix.accounts[1]? = some (AccountMeta.new_readonly metadata_program_id false) :=
  metaplex_create_master_edition_placeholder createC5 ⟨caV1small⟩ [] rfl (by decide)

/-- C8: `CreateBuilder::instruction` panics whenever one of the required
fields (metadata, mint, authority, payer, update authority, create args)
was never set; with all of them set (and an encodable payload) it
succeeds, and the unset system-program and instructions-sysvar slots
default to the well-known ids. -/
theorem create_builder_required_fields (b : CreateBuilder) :
    ((b.metadata = none ∨ b.mint = none ∨ b.authority = none ∨
      b.payer = none ∨ b.update_authority = none ∨ b.create_args = none) →
      b.instruction = .panicked) ∧
    (∀ ca, b.create_args = some ca →
      b.metadata.isSome = true → b.mint.isSome = true →
      b.authority.isSome = true → b.payer.isSome = true →
      b.update_authority.isSome = true →
      (borshCreateArgs ca).isSome = true →
      ∃ ix, b.instruction = .ok ix ∧
        (b.system_program = none →
          ix.accounts[6]? = some (AccountMeta.new_readonly system_program_id false)) ∧
        (b.sysvar_instructions = none →
          ix.accounts[7]? = some (AccountMeta.new_readonly sysvar_program_id false))) := by
  constructor
  · intro h
    rcases h with h | h | h | h | h | h
    · simp [CreateBuilder.instruction, expectSome, h]
    · cases h1 : b.metadata <;>
        simp [CreateBuilder.instruction, expectSome, h, h1]
    · cases h1 : b.metadata <;> cases h2 : b.mint <;>
        simp [CreateBuilder.instruction, expectSome, h, h1, h2]
    · cases h1 : b.metadata <;> cases h2 : b.mint <;> cases h3 : b.authority <;>
        simp [CreateBuilder.instruction, expectSome, h, h1, h2, h3]
    · cases h1 : b.metadata <;> cases h2 : b.mint <;> cases h3 : b.authority <;>
        cases h4 : b.payer <;>
        simp [CreateBuilder.instruction, expectSome, h, h1, h2, h3, h4]
    · cases h1 : b.metadata <;> cases h2 : b.mint <;> cases h3 : b.authority <;>
        cases h4 : b.payer <;> cases h5 : b.update_authority <;>
        simp [CreateBuilder.instruction, expectSome, h, h1, h2, h3, h4, h5]
  · intro ca hca h1 h2 h3 h4 h5 hb
    obtain ⟨m, hm⟩ := Option.isSome_iff_exists.mp h1
    obtain ⟨mi, hmi⟩ := Option.isSome_iff_exists.mp h2
    obtain ⟨au, hau⟩ := Option.isSome_iff_exists.mp h3
    obtain ⟨pa, hpa⟩ := Option.isSome_iff_exists.mp h4
    obtain ⟨ua, hua⟩ := Option.isSome_iff_exists.mp h5
    obtain ⟨bs, hbs⟩ := Option.isSome_iff_exists.mp hb
    simp only [CreateBuilder.instruction, expectSome, hca, hm, hmi, hau, hpa, hua,
      PResult.monad_bind_eq, PResult.bind_ok,
      Create.instruction_with_remaining_accounts, hbs]
    cases hme : b.master_edition <;>
      exact ⟨_, rfl, fun h6 => by simp [h6], fun h7 => by simp [h7]⟩

/-- Witness for C8: the empty builder panics; the fully-populated builder
succeeds, with both defaulted slots holding the well-known ids. -/
theorem create_builder_required_fields_witness :
    CreateBuilder.new.instruction = .panicked ∧
    ∃ ix, builderFull.instruction = .ok ix ∧
      (builderFull.system_program = none →
        ix.accounts[6]? = some (AccountMeta.new_readonly system_program_id false)) ∧
      (builderFull.sysvar_instructions = none →
        ix.accounts[7]? = some (AccountMeta.new_readonly sysvar_program_id false)) :=
  ⟨(create_builder_required_fields CreateBuilder.new).1 (Or.inl rfl),
   (create_builder_required_fields builderFull).2 caV1small rfl rfl rfl rfl rfl rfl
     (by decide)⟩

/-- A successful string encoding is the 4-byte length prefix plus the
content, and only exists when the length fits in `u32`. -/
theorem borshBytes_eq_some {s b : List Nat} (h : borshBytes s = some b) :
    s.length < 2 ^ 32 ∧ b = u32LE s.length ++ s := by
  simp only [borshBytes, borshLen] at h
  split at h <;> simp_all

/-- The probing pass counts exactly the emitted bytes of one string. -/
theorem countString_of_borshBytes {s b : List Nat} (h : borshBytes s = some b) :
    countString s = some b.length := by
  obtain ⟨hlt, rfl⟩ := borshBytes_eq_some h
  simp [countString, hlt, u32LE]
  omega

/-- The probing pass counts exactly the emitted bytes of one pair. -/
theorem countPair_of_borshPair {p : List Nat × List Nat} {b : List Nat}
    (h : borshPair p = some b) : countPair p = some b.length := by
  simp only [borshPair, Option.pure_def, Option.bind_eq_bind, Option.bind_eq_some,
    Option.some.injEq] at h
  obtain ⟨b1, h1, b2, h2, rfl⟩ := h
  simp [countPair, countString_of_borshBytes h1, countString_of_borshBytes h2,
    Option.bind_eq_bind]

/-- The probing pass sums to the length of the concatenated pair chunks. -/
theorem sumCounts_of_joinChunks :
    ∀ {l : List (List Nat × List Nat)} {cat : List Nat},
    joinChunks (l.map borshPair) = some cat →
    sumCounts (l.map countPair) = some cat.length := by
  intro l
  induction l with
  | nil => intro cat h; simp only [List.map_nil, joinChunks] at h
           cases h; rfl
  | cons p rest ih =>
    intro cat h
    simp only [List.map_cons, joinChunks, Option.pure_def, Option.bind_eq_bind,
      Option.bind_eq_some, Option.some.injEq] at h
    obtain ⟨b1, h1, b2, h2, rfl⟩ := h
    simp [sumCounts, countPair_of_borshPair h1, ih h2, Option.bind_eq_bind]

/-- C7: the size-probing pass agrees with the real encoding — for every
metadata record whose serialization succeeds, `get_instance_packed_len`
returns exactly the emitted byte count, and `tlv_size_of` returns
`Ok(10 + that count)` (10-byte TLV header plus the body). -/
theorem token_metadata_size_probe_agrees (m : TokenMetadata) (bs : List Nat)
    (h : serializeTokenMetadata m = some bs) :
    get_instance_packed_len m = some bs.length ∧
    tlv_size_of m = .ok (.ok (10 + bs.length)) := by
  simp only [serializeTokenMetadata, Option.pure_def, Option.bind_eq_bind,
    Option.bind_eq_some, Option.some.injEq] at h
  obtain ⟨bn, hn, bsy, hsy, bu, hu, bv, hv, rfl⟩ := h
  simp only [borshVec, Option.pure_def, Option.bind_eq_bind, Option.bind_eq_some,
    Option.some.injEq, borshLen] at hv
  obtain ⟨bl, hbl, cat, hcat, rfl⟩ := hv
  split at hbl
  case isFalse => exact absurd hbl (by simp)
  case isTrue hlt =>
    cases hbl
    have hgl : get_instance_packed_len m =
        some (32 + 32 + (4 + m.name.length) + (4 + m.symbol.length) +
          (4 + m.uri.length) + (4 + cat.length)) := by
      simp only [get_instance_packed_len, hlt, if_true,
        countString_of_borshBytes hn, countString_of_borshBytes hsy,
        countString_of_borshBytes hu, sumCounts_of_joinChunks hcat,
        Option.pure_def, Option.bind_eq_bind, Option.bind_some]
      obtain ⟨l1, _⟩ := borshBytes_eq_some hn
      obtain ⟨l2, _⟩ := borshBytes_eq_some hsy
      obtain ⟨l3, _⟩ := borshBytes_eq_some hu
      simp_all [u32LE]
      omega
    have hlen : (m.update_authority.bytes ++ m.mint.bytes ++ bn ++ bsy ++ bu ++
        (u32LE m.additional_metadata.length ++ cat)).length =
        32 + 32 + (4 + m.name.length) + (4 + m.symbol.length) +
          (4 + m.uri.length) + (4 + cat.length) := by
      obtain ⟨_, rfl⟩ := borshBytes_eq_some hn
      obtain ⟨_, rfl⟩ := borshBytes_eq_some hsy
      obtain ⟨_, rfl⟩ := borshBytes_eq_some hu
      simp [u32LE, m.update_authority.len32, m.mint.len32]
      omega
    rw [hlen, hgl]
    exact ⟨rfl, by simp [tlv_size_of, hgl]⟩

/-- Witness for C7 at a concrete metadata record. -/
theorem token_metadata_size_probe_agrees_witness :
    get_instance_packed_len tmFixture =
      some ((serializeTokenMetadata tmFixture).getD []).length ∧
    tlv_size_of tmFixture =
      .ok (.ok (10 + ((serializeTokenMetadata tmFixture).getD []).length)) :=
  token_metadata_size_probe_agrees tmFixture
    ((serializeTokenMetadata tmFixture).getD []) (by decide)

/-- When the three strings fit in `u32`, the token-metadata
initialisation succeeds with the 8-byte discriminator followed by the
three length-prefixed strings. -/
theorem initialize_metadata_ok (prog metadata upd mint mauth : Pubkey)
    (name symbol uri : List Nat) (hn : name.length < 2 ^ 32)
    (hs : symbol.length < 2 ^ 32) (hu : uri.length < 2 ^ 32) :
    initialize_metadata prog metadata upd mint mauth name symbol uri = .ok
      { program_id := prog
        accounts :=
          [AccountMeta.new metadata false,
           AccountMeta.new_readonly upd false,
           AccountMeta.new_readonly mint false,
           AccountMeta.new_readonly mauth true]
        data := initializeMetadataDiscriminator ++
          (u32LE name.length ++ name ++
            (u32LE symbol.length ++ symbol ++ (u32LE uri.length ++ uri))) } := by
  have hn' : name.length < 4294967296 := hn
  have hs' : symbol.length < 4294967296 := hs
  have hu' : uri.length < 4294967296 := hu
  simp [initialize_metadata, borshBytes, borshLen, hn', hs', hu']

/-- C1 (amended): with a metadata config carrying no additional metadata
and a close authority that parses, `create_fungible_22_ix` returns
exactly five instructions in the order `create_account`,
`initialize_metadata_pointer`, `initialize_mint_close_authority`,
`initialize_mint2`, metadata initialisation — and the `create_account`
space field is the caller-supplied `mint_size` verbatim (the function
performs no extension-based sizing). -/
theorem create_fungible22_five_instructions (args : CreateFungible22Args)
    (name symbol uri s : List Nat) (ca : Pubkey)
    (hmeta : args.extensions.metadata = some ⟨name, symbol, uri, none⟩)
    (hca : args.extensions.close_authority = some s)
    (hparse : pubkeyFromStr s = some ca)
    (hn : name.length < 2 ^ 32) (hsy : symbol.length < 2 ^ 32)
    (hu : uri.length < 2 ^ 32) :
    ∃ im, initialize_metadata token22_program_id args.mint args.payer args.mint
        args.payer name symbol uri = .ok im ∧
      create_fungible_22_ix args = .ok
        [create_account args.payer args.mint args.mint_rent args.mint_size
           token22_program_id,
         initialize_metadata_pointer args.mint args.mint args.payer,
         initialize_mint_close_authority args.mint (some ca),
         initialize_mint2 token22_program_id args.mint args.payer
           (some args.payer) args.decimals,
         im] ∧
      (create_account args.payer args.mint args.mint_rent args.mint_size
          token22_program_id).data =
        u32LE 0 ++ u64LE args.mint_rent ++ u64LE args.mint_size ++
          token22_program_id.bytes := by
  refine ⟨_, initialize_metadata_ok _ _ _ _ _ _ _ _ hn hsy hu, ?_, rfl⟩
  simp only [create_fungible_22_ix, hmeta, hca, hparse, expectSome,
    Option.isSome_some, if_true, PResult.monad_bind_eq, PResult.bind_ok,
    PResult.pure_eq, initialize_metadata_ok _ _ _ _ _ _ _ _ hn hsy hu]
  rfl

/-- Witness for C1 at the spec's end-to-end scenario (`name = symbol =
"X"`, `uri = "u"`, a valid close authority). -/
theorem create_fungible22_five_instructions_witness :
    ∃ im, initialize_metadata token22_program_id f22ArgsB.mint f22ArgsB.payer
        f22ArgsB.mint f22ArgsB.payer (ascii "X") (ascii "X") (ascii "u") = .ok im ∧
      create_fungible_22_ix f22ArgsB = .ok
        [create_account f22ArgsB.payer f22ArgsB.mint f22ArgsB.mint_rent
           f22ArgsB.mint_size token22_program_id,
         initialize_metadata_pointer f22ArgsB.mint f22ArgsB.mint f22ArgsB.payer,
         initialize_mint_close_authority f22ArgsB.mint (some system_program_id),
         initialize_mint2 token22_program_id f22ArgsB.mint f22ArgsB.payer
           (some f22ArgsB.payer) f22ArgsB.decimals,
         im] ∧
      (create_account f22ArgsB.payer f22ArgsB.mint f22ArgsB.mint_rent
          f22ArgsB.mint_size token22_program_id).data =
        u32LE 0 ++ u64LE f22ArgsB.mint_rent ++ u64LE f22ArgsB.mint_size ++
          token22_program_id.bytes :=
  create_fungible22_five_instructions f22ArgsB (ascii "X") (ascii "X")
    (ascii "u") closeAuthorityStr system_program_id rfl rfl (by decide)
    (by decide) (by decide) (by decide)

/-- Counterexample for C1 as stated: at `f22ArgsA` every premise of the
claim holds (metadata `{name "X", symbol "X", uri "u"}`, a valid close
authority), yet the emitted `create_account` carries space 0 — the
caller's `mint_size` verbatim — while `f22ArgsB` (same extensions)
yields space 500.  The space is therefore caller-controlled and can be
smaller than any layout, so it does not cover the base mint layout plus
the metadata-pointer and close-authority extension records as claimed. -/
theorem create_fungible22_space_counterexample :
    (create_fungible_22_ix f22ArgsA).isPanic = false ∧
    (resList (create_fungible_22_ix f22ArgsA)).length = 5 ∧
    f22ArgsA.extensions.metadata = some metaCfgX ∧
    f22ArgsA.extensions.close_authority.map pubkeyFromStr =
      some (some system_program_id) ∧
    decodeCreateAccountSpace
      ((resList (create_fungible_22_ix f22ArgsA)).headD dummyInstruction) = 0 ∧
    decodeCreateAccountSpace
      ((resList (create_fungible_22_ix f22ArgsB)).headD dummyInstruction) = 500 := by
  decide

/-- C3 (amended): whenever both the metadata and close-authority
extensions are requested and the builder succeeds, the two pre-init
extension instructions sit at positions 1 and 2 in the fixed order
`initialize_metadata_pointer` then `initialize_mint_close_authority`,
regardless of the request — `Fungible22Fields` carries no
declaration-order information that could reorder them. -/
theorem create_fungible22_preinit_fixed_order (args : CreateFungible22Args)
    (mc : MetadataConfig) (s : List Nat) (ca : Pubkey) (l : List Instruction)
    (hmeta : args.extensions.metadata = some mc)
    (hca : args.extensions.close_authority = some s)
    (hparse : pubkeyFromStr s = some ca)
    (hok : create_fungible_22_ix args = .ok l) :
    l[1]? = some (initialize_metadata_pointer args.mint args.mint args.payer) ∧
    l[2]? = some (initialize_mint_close_authority args.mint (some ca)) := by
  simp only [create_fungible_22_ix, hmeta, hca, hparse, expectSome,
    Option.isSome_some, if_true, PResult.monad_bind_eq, PResult.bind_ok,
    PResult.pure_eq] at hok
  cases him : initialize_metadata token22_program_id args.mint args.payer
      args.mint args.payer mc.name mc.symbol mc.uri with
  | panicked => rw [him] at hok; simp at hok
  | ok im =>
    rw [him] at hok
    cases hadd : mc.additional_metadata with
    | none =>
      rw [hadd] at hok
      simp only [PResult.bind_ok] at hok
      cases hok
      exact ⟨rfl, rfl⟩
    | some pairs =>
      rw [hadd] at hok
      simp only [PResult.bind_ok, PResult.monad_bind_eq] at hok
      cases hmm : pairs.mapM fun p =>
          update_field token22_program_id args.mint args.payer
            (MetadataField.Key p.1) p.2 with
      | panicked => rw [hmm] at hok; simp at hok
      | ok extra =>
        rw [hmm] at hok
        simp only [PResult.bind_ok] at hok
        cases hok
        exact ⟨rfl, rfl⟩

/-- Witness for C3 at a concrete both-extension request. -/
theorem create_fungible22_preinit_fixed_order_witness :
    (resList (create_fungible_22_ix f22ArgsF))[1]? =
      some (initialize_metadata_pointer f22ArgsF.mint f22ArgsF.mint
        f22ArgsF.payer) ∧
    (resList (create_fungible_22_ix f22ArgsF))[2]? =
      some (initialize_mint_close_authority f22ArgsF.mint
        (some system_program_id)) :=
  create_fungible22_preinit_fixed_order f22ArgsF metaCfgX closeAuthorityStr
    system_program_id (resList (create_fungible_22_ix f22ArgsF)) rfl rfl
    (by decide) (by decide)

/-- Counterexample for C3 as stated: `extBoth` is the unique code-level
representation of a request declaring both extensions — the
`Fungible22Fields` struct records no declaration order, so the requests
the claim distinguishes (`[CloseAuthority, MetadataPointer]` versus
`[MetadataPointer, CloseAuthority]`) denote the same value.  The emitted
pre-init sequence is always metadata-pointer first; since the two
instructions differ, the sequence cannot also match the
`[CloseAuthority, MetadataPointer]` declaration order, refuting the
claim that the order follows the declaration rather than a fixed system
ordering. -/
theorem create_fungible22_order_counterexample :
    (resList (create_fungible_22_ix f22ArgsE))[1]? =
      some (initialize_metadata_pointer pkMint pkMint pkPayer) ∧
    (resList (create_fungible_22_ix f22ArgsE))[2]? =
      some (initialize_mint_close_authority pkMint (some system_program_id)) ∧
    initialize_metadata_pointer pkMint pkMint pkPayer ≠
      initialize_mint_close_authority pkMint (some system_program_id) := by
  decide

/-- C10: the builder never reads the `transfer_fee`, `interest_bearing`,
`transfer_hook`, `permanent_delegate` and `non_transferrable` request
fields — two requests agreeing on everything else produce identical
instruction lists. -/
theorem create_fungible22_ignores_extra_extensions
    (a1 a2 : CreateFungible22Args)
    (h1 : a1.mint = a2.mint) (h2 : a1.mint_size = a2.mint_size)
    (h3 : a1.mint_rent = a2.mint_rent) (h4 : a1.decimals = a2.decimals)
    (h5 : a1.payer = a2.payer)
    (h6 : a1.extensions.metadata = a2.extensions.metadata)
    (h7 : a1.extensions.close_authority = a2.extensions.close_authority) :
    create_fungible_22_ix a1 = create_fungible_22_ix a2 := by
  obtain ⟨m1, ⟨md1, ca1, pd1, nt1, tf1, ib1, th1⟩, sz1, rent1, d1, p1⟩ := a1
  obtain ⟨m2, ⟨md2, ca2, pd2, nt2, tf2, ib2, th2⟩, sz2, rent2, d2, p2⟩ := a2
  simp only at h1 h2 h3 h4 h5 h6 h7
  subst h1 h2 h3 h4 h5 h6 h7
  rfl

/-- Witness for C10: two concrete requests differing in all five ignored
fields produce the same instructions. -/
theorem create_fungible22_ignores_extra_extensions_witness :
    create_fungible_22_ix f22ArgsC = create_fungible_22_ix f22ArgsD :=
  create_fungible22_ignores_extra_extensions f22ArgsC f22ArgsD
    rfl rfl rfl rfl rfl rfl rfl

/-- C9 (code evidence): a malformed textual address makes both
`create_metadata_ix` (invalid mint) and `create_fungible_22_ix` (invalid
close authority) panic via `Pubkey::from_str(..).unwrap()` instead of
returning the typed malformed-address error the spec prescribes —
`create_metadata_ix` even declares `Result<_, ProgramError>` but has no
error path. -/
theorem address_parse_failure_panics :
    (create_metadata_ix trivFpa badCreateMetadataArgs).isPanic = true ∧
    create_fungible_22_ix badF22Args = .panicked := by
  decide

end IcSpl
